import Mathlib

/-!
Shallow embedding of the LG WebOS Signage API client library
(`lg_webos_client.py`, `lg_webos_legacy_client.py`, `lg_webos_unified_client.py`)
together with proofs about its login state machines, display-type detection,
content operations and credential encoding.

HTTP traffic is modelled by explicit environments: each network call the code
makes is a field of an environment structure, valued in `Except Unit _` so that
a raised transport exception (`.error ()`) is distinguished from a response.
Side effects that the specification talks about (POSTing the login form,
prompting the operator for a captcha, replacing the cookie session) are
recorded in an explicit event log.
-/

namespace LGWebOS

set_option maxRecDepth 100000

/-! ## Bytes, UTF-8 and hex encoding

Python's `str.encode()` produces the UTF-8 bytes of a string; `hexdigest()`
renders bytes as lowercase hexadecimal.  Bytes are modelled as `Nat` values
below 256, 64-bit words as `Nat` values reduced mod `2 ^ 64`. -/

/-- UTF-8 encoding of a single code point (Python `str.encode()`). -/
def charUtf8 (c : Char) : List Nat :=
  let n := c.toNat
  if n < 0x80 then [n]
  else if n < 0x800 then
    [0xC0 ||| (n >>> 6), 0x80 ||| (n &&& 0x3F)]
  else if n < 0x10000 then
    [0xE0 ||| (n >>> 12), 0x80 ||| ((n >>> 6) &&& 0x3F), 0x80 ||| (n &&& 0x3F)]
  else
    [0xF0 ||| (n >>> 18), 0x80 ||| ((n >>> 12) &&& 0x3F),
     0x80 ||| ((n >>> 6) &&& 0x3F), 0x80 ||| (n &&& 0x3F)]

/-- Python `s.encode()`: UTF-8 bytes of a string. -/
def utf8Bytes (s : String) : List Nat :=
  s.data.flatMap charUtf8

/-- Lowercase hexadecimal digit for a value below 16. -/
def hexChar (n : Nat) : Char :=
  if n < 10 then Char.ofNat (48 + n) else Char.ofNat (87 + n)

/-- Two lowercase hex digits of one byte. -/
def byteHex (b : Nat) : List Char :=
  [hexChar (b / 16 % 16), hexChar (b % 16)]

/-- Python `hashlib`'s `hexdigest()` rendering of a byte string. -/
def hexdigest (bs : List Nat) : String :=
  String.mk (bs.flatMap byteHex)

/-! ## SHA-512 (model of Python's `hashlib.sha512`, FIPS 180-4) -/

/-- Reduce to a 64-bit word. -/
def w64 (n : Nat) : Nat := n % 2 ^ 64

/-- Right rotation of a 64-bit word. -/
def rotr64 (r x : Nat) : Nat := w64 ((x >>> r) ||| (x <<< (64 - r)))

/-- Bitwise complement within 64 bits. -/
def not64 (x : Nat) : Nat := x ^^^ (2 ^ 64 - 1)

def shaCh (x y z : Nat) : Nat := (x &&& y) ^^^ (not64 x &&& z)

def shaMaj (x y z : Nat) : Nat := (x &&& y) ^^^ (x &&& z) ^^^ (y &&& z)

def bigSigma0 (x : Nat) : Nat := rotr64 28 x ^^^ rotr64 34 x ^^^ rotr64 39 x

def bigSigma1 (x : Nat) : Nat := rotr64 14 x ^^^ rotr64 18 x ^^^ rotr64 41 x

def smallSigma0 (x : Nat) : Nat := rotr64 1 x ^^^ rotr64 8 x ^^^ (x >>> 7)

def smallSigma1 (x : Nat) : Nat := rotr64 19 x ^^^ rotr64 61 x ^^^ (x >>> 6)

/-- Trial-division primality test (only used on small numbers to derive the
SHA-512 constants). -/
def isPrimeNat (n : Nat) : Bool :=
  2 ≤ n && (((List.range n).drop 2).all fun d => n % d ≠ 0)

/-- The first `k` primes (the 80th prime, 409, lies below 512). -/
def firstPrimes (k : Nat) : List Nat :=
  ((List.range 512).filter isPrimeNat).take k

/-- Bisection for the integer `e`-th root, fuelled so the kernel can
evaluate it; the invariant keeps `lo ^ e ≤ n < hi ^ e`. -/
def irootGo (e n : Nat) : Nat → Nat → Nat → Nat
  | 0, lo, _ => lo
  | fuel + 1, lo, hi =>
    if hi ≤ lo + 1 then lo
    else
      let mid := (lo + hi) / 2
      if mid ^ e ≤ n then irootGo e n fuel mid hi else irootGo e n fuel lo mid

/-- Integer `e`-th root (floor). -/
def iroot (e n : Nat) : Nat := irootGo e n 256 0 (n + 1)

/-- SHA-512 round constants: the first 64 bits of the fractional parts of
the cube roots of the first eighty primes (FIPS 180-4 section 4.2.3),
`⌊2 ^ 64 · frac(p ^ (1/3))⌋ = ⌊(p · 2 ^ 192) ^ (1/3)⌋ mod 2 ^ 64`. -/
def shaK : Array Nat :=
  ((firstPrimes 80).map fun p => iroot 3 (p <<< 192) % 2 ^ 64).toArray

/-- The eight SHA-512 chaining words. -/
structure Sha512State where
  h0 : Nat
  h1 : Nat
  h2 : Nat
  h3 : Nat
  h4 : Nat
  h5 : Nat
  h6 : Nat
  h7 : Nat
  deriving Repr, DecidableEq

/-- SHA-512 initial hash value: the first 64 bits of the fractional parts
of the square roots of the first eight primes (FIPS 180-4 section 5.3.5). -/
def shaH0 : Sha512State :=
  match (firstPrimes 8).map fun p => iroot 2 (p <<< 128) % 2 ^ 64 with
  | [a, b, c, d, e, f, g, h] => ⟨a, b, c, d, e, f, g, h⟩
  | _ => ⟨0, 0, 0, 0, 0, 0, 0, 0⟩

/-- Big-endian 128-bit length field of the padding. -/
def lenBytes128 (bitLen : Nat) : List Nat :=
  (List.range 16).map fun i => bitLen >>> (8 * (15 - i)) &&& 0xFF

/-- SHA-512 message padding: `0x80`, zeros to 112 mod 128, 128-bit length. -/
def shaPad (msg : List Nat) : List Nat :=
  let zeros := (239 - msg.length % 128) % 128
  msg ++ [0x80] ++ List.replicate zeros 0 ++ lenBytes128 (8 * msg.length)

/-- Split a list into chunks of `n` elements (fuelled structural recursion so
that the kernel can evaluate it; `fuel = l.length` always suffices for
`n > 0`). -/
def chunkedAux (fuel n : Nat) (l : List α) : List (List α) :=
  match fuel, l with
  | 0, _ => []
  | _, [] => []
  | fuel + 1, a :: t => (a :: t).take n :: chunkedAux fuel n ((a :: t).drop n)

/-- Split a byte list into chunks of `n` bytes. -/
def chunked (n : Nat) (l : List α) : List (List α) :=
  if n = 0 then [] else chunkedAux l.length n l

/-- Big-endian word from bytes. -/
def beWord (bs : List Nat) : Nat :=
  bs.foldl (fun a b => a * 256 + b) 0

/-- The sixteen 64-bit words of one 128-byte block. -/
def blockWords (block : List Nat) : Array Nat :=
  ((chunked 8 block).map beWord).toArray

/-- Extend sixteen words to the eighty-word message schedule. -/
def msgSchedule (ws : Array Nat) : Array Nat :=
  (List.range 64).foldl
    (fun arr i =>
      let t := i + 16
      arr.push (w64 (smallSigma1 arr[t - 2]! + arr[t - 7]! +
                     smallSigma0 arr[t - 15]! + arr[t - 16]!)))
    ws

/-- One SHA-512 round on the working variables `(a,…,h)`. -/
def shaRound (st : Sha512State) (k w : Nat) : Sha512State :=
  let t1 := w64 (st.h7 + bigSigma1 st.h4 + shaCh st.h4 st.h5 st.h6 + k + w)
  let t2 := w64 (bigSigma0 st.h0 + shaMaj st.h0 st.h1 st.h2)
  ⟨w64 (t1 + t2), st.h0, st.h1, st.h2, w64 (st.h3 + t1), st.h4, st.h5, st.h6⟩

/-- Compress one 128-byte block into the chaining state. -/
def shaCompress (h : Sha512State) (block : List Nat) : Sha512State :=
  let ws := msgSchedule (blockWords block)
  let f := (List.range 80).foldl (fun st t => shaRound st shaK[t]! ws[t]!) h
  ⟨w64 (h.h0 + f.h0), w64 (h.h1 + f.h1), w64 (h.h2 + f.h2), w64 (h.h3 + f.h3),
   w64 (h.h4 + f.h4), w64 (h.h5 + f.h5), w64 (h.h6 + f.h6), w64 (h.h7 + f.h7)⟩

/-- Big-endian bytes of one 64-bit word. -/
def wordBytes (w : Nat) : List Nat :=
  [w >>> 56 &&& 0xFF, w >>> 48 &&& 0xFF, w >>> 40 &&& 0xFF, w >>> 32 &&& 0xFF,
   w >>> 24 &&& 0xFF, w >>> 16 &&& 0xFF, w >>> 8 &&& 0xFF, w &&& 0xFF]

/-- SHA-512 digest (64 bytes) of a byte string: model of `hashlib.sha512`. -/
def sha512 (msg : List Nat) : List Nat :=
  let f := ((chunked 128 (shaPad msg))).foldl shaCompress shaH0
  wordBytes f.h0 ++ wordBytes f.h1 ++ wordBytes f.h2 ++ wordBytes f.h3 ++
  wordBytes f.h4 ++ wordBytes f.h5 ++ wordBytes f.h6 ++ wordBytes f.h7

/-! ## Credential encoder

`LGWebOSClient._encode_password` in `lg_webos_client.py` and the inline
encoding at lines 183-184 of `_login_modern` in `lg_webos_unified_client.py`. -/

/-- `lg_webos_client.py` lines 43-57: `_encode_password(password, captcha)`. -/
def encodePassword (password captcha : String) : String :=
  let first_hash := hexdigest (sha512 (utf8Bytes password))
  let combined := first_hash ++ captcha
  let final_hash := hexdigest (sha512 (utf8Bytes combined))
  final_hash

/-- `lg_webos_unified_client.py` lines 183-184: the inline digest computation
in `_login_modern`. -/
def unifiedModernDigest (password captcha_text : String) : String :=
  let first_hash := hexdigest (sha512 (utf8Bytes password))
  let final_hash := hexdigest (sha512 (utf8Bytes (first_hash ++ captcha_text)))
  final_hash

/-- The lowercase hexadecimal alphabet. -/
def hexAlphabet : List Char := "0123456789abcdef".data

/-! ### Structural lemmas for the encoder -/

theorem utf8Bytes_append (a b : String) :
    utf8Bytes (a ++ b) = utf8Bytes a ++ utf8Bytes b := by
  simp [utf8Bytes, String.data_append]

theorem sha512_length (msg : List Nat) : (sha512 msg).length = 64 := by
  simp [sha512, wordBytes]

theorem byteHex_length (b : Nat) : (byteHex b).length = 2 := rfl

theorem hexdigest_length (bs : List Nat) :
    (hexdigest bs).length = 2 * bs.length := by
  induction bs with
  | nil => rfl
  | cons b t ih =>
    simp only [hexdigest, String.length] at ih ⊢
    simp [List.flatMap_cons, byteHex] at ih ⊢
    omega

theorem hexChar_mem_alphabet : ∀ n < 16, hexChar n ∈ hexAlphabet := by decide

/-- A lowercase hexadecimal digit character. -/
def isHexLower (c : Char) : Bool :=
  c.isDigit || ('a' ≤ c && c ≤ 'f')

theorem hexChar_isHexLower : ∀ n < 16, isHexLower (hexChar n) = true := by decide

theorem hexdigest_chars (bs : List Nat) :
    ∀ c ∈ (hexdigest bs).data, c ∈ hexAlphabet := by
  intro c hc
  simp only [hexdigest] at hc
  rw [List.mem_flatMap] at hc
  obtain ⟨b, _, hb⟩ := hc
  simp only [byteHex, List.mem_cons, List.not_mem_nil, or_false] at hb
  rcases hb with h | h <;> subst h <;>
    exact hexChar_mem_alphabet _ (Nat.mod_lt _ (by norm_num))

theorem hexdigest_all_hexLower (bs : List Nat) :
    (hexdigest bs).data.all isHexLower = true := by
  rw [List.all_eq_true]
  intro c hc
  simp only [hexdigest] at hc
  rw [List.mem_flatMap] at hc
  obtain ⟨b, _, hb⟩ := hc
  simp only [byteHex, List.mem_cons, List.not_mem_nil, or_false] at hb
  rcases hb with h | h <;> subst h <;>
    exact hexChar_isHexLower _ (Nat.mod_lt _ (by norm_num))

/-- The SHA-512 model agrees with the FIPS 180-4 test vector for `"abc"`
(the digest `hashlib.sha512(b"abc").hexdigest()` produces). -/
theorem sha512_abc_vector :
    hexdigest (sha512 (utf8Bytes "abc")) =
      "ddaf35a193617abacc417349ae20413112e6fa4e89a97ea20a9eeee64b55d39a2192992a274fc1a836ba3c23a3feebbd454d4423643ce80e2a9ac94fa54ca49f" := by
  decide

/-- **C3.** For every password string and every captcha string,
`_encode_password` (`lg_webos_client.py` lines 43-57) returns the
lowercase-hex SHA-512 digest of the byte concatenation of the lowercase-hex
SHA-512 digest of the password with the raw captcha text; the inline encoding
in the unified client's `_login_modern` computes the same value; the result is
deterministic (same inputs always yield the same output) and is always exactly
128 lowercase hexadecimal characters. -/
theorem claim_C3_encoder (password captcha : String) :
    encodePassword password captcha =
      hexdigest (sha512 (utf8Bytes (hexdigest (sha512 (utf8Bytes password)))
        ++ utf8Bytes captcha))
    ∧ unifiedModernDigest password captcha = encodePassword password captcha
    ∧ (∀ p c, p = password → c = captcha →
        encodePassword p c = encodePassword password captcha)
    ∧ (encodePassword password captcha).length = 128
    ∧ (encodePassword password captcha).data.all isHexLower = true := by
  refine ⟨?_, rfl, ?_, ?_, ?_⟩
  · simp only [encodePassword]
    rw [utf8Bytes_append]
  · rintro p c rfl rfl
    rfl
  · simp only [encodePassword]
    rw [hexdigest_length, sha512_length]
  · exact hexdigest_all_hexLower _

/-- Witness for C3 at the spec's end-to-end example inputs
(`password = "secret"`, `captcha = "4821"`). -/
theorem claim_C3_encoder_witness :
    encodePassword "secret" "4821" = encodePassword "secret" "4821"
    ∧ (encodePassword "secret" "4821").length = 128 :=
  ⟨(claim_C3_encoder "secret" "4821").2.2.1 "secret" "4821" rfl rfl,
   (claim_C3_encoder "secret" "4821").2.2.2.1⟩

/-! ## Display-type detection (`lg_webos_unified_client.py` lines 49-122)

Each candidate probe makes a handful of HTTP calls; `ProbeEnv` records their
outcomes for one loop iteration, `.error ()` standing for a raised `requests`
exception (connection error or timeout), which the surrounding `try` catches
and turns into `continue`. -/

inductive DisplayType where
  | modern
  | legacy
  deriving Repr, DecidableEq

/-- The network outcomes one probe-loop iteration of `_detect_display_type`
can observe. -/
structure ProbeEnv where
  /-- `GET /login/status` (line 74): HTTP status. -/
  loginStatus : Except Unit Nat
  /-- second `GET /login/status` through the throwaway test session (line 81);
  its response is discarded, only a raised exception matters. -/
  loginStatusAgain : Except Unit Unit
  /-- `GET /login/captchaText` (line 84): HTTP status, and the JSON parse
  outcome — `.error` for a parse failure, otherwise whether the object has
  `status` and `message` fields. -/
  captchaText : Except Unit (Nat × Except Unit (Bool × Bool))
  /-- `GET /login` (line 102): HTTP status and whether `Content-Type`
  contains `text/html`. -/
  loginPage : Except Unit (Nat × Bool)
  /-- `GET /request/captchapng` (line 108): HTTP status. -/
  captchaPng : Except Unit Nat
  deriving Repr

/-- Loop body for a `'modern'` candidate (lines 72-98): `some` is the
`return`, `none` falls through to the next candidate. -/
def probeModern (port : Nat) (e : ProbeEnv) : Option (DisplayType × Nat) :=
  match e.loginStatus with
  | .error _ => none
  | .ok s =>
    if s ≠ 200 then none
    else
      match e.loginStatusAgain with
      | .error _ => none
      | .ok _ =>
        match e.captchaText with
        | .error _ => none
        | .ok (cs, parsed) =>
          if cs = 200 ∨ cs = 404 then
            match parsed with
            | .error _ => none
            | .ok (hasStatus, hasMessage) =>
              if hasStatus && hasMessage then some (.modern, port) else none
          else none

/-- Loop body for a `'legacy'` candidate (lines 101-112). -/
def probeLegacy (port : Nat) (e : ProbeEnv) : Option (DisplayType × Nat) :=
  match e.loginPage with
  | .error _ => none
  | .ok (s, isHtml) =>
    if s = 200 then
      if isHtml then
        match e.captchaPng with
        | .error _ => none
        | .ok ps => if ps = 200 ∨ ps = 404 then some (.legacy, port) else none
      else none
    else none

/-- The fixed candidate list at lines 60-64. -/
def testConfigs : List (Nat × DisplayType) :=
  [(3777, .modern), (443, .modern), (443, .legacy)]

/-- Dispatch one candidate to its probe body. -/
def probeCandidate (e : ProbeEnv) : Nat × DisplayType → Option (DisplayType × Nat)
  | (port, .modern) => probeModern port e
  | (port, .legacy) => probeLegacy port e

/-- The `for` loop of `_detect_display_type`, iteration-indexed environment;
exhaustion defaults to `('modern', 3777)` (lines 119-122). -/
def detectLoop (env : Nat → ProbeEnv) :
    List (Nat × DisplayType) → Nat → DisplayType × Nat
  | [], _ => (.modern, 3777)
  | c :: rest, i =>
    match probeCandidate (env i) c with
    | some r => r
    | none => detectLoop env rest (i + 1)

/-- `_detect_display_type` (lines 49-122). -/
def detectDisplayType (env : Nat → ProbeEnv) : DisplayType × Nat :=
  detectLoop env testConfigs 0

/-- **C4.** Detection probes the fixed candidate list in order
`(3777, modern)`, `(443, modern)`, `(443, legacy)`; the first candidate whose
discriminant is satisfied is returned and no later candidate's outcomes are
consulted; a raised network error on a candidate's first request yields a
non-fatal fall-through to the next candidate; if every candidate fails,
detection returns `('modern', 3777)` rather than an error. -/
theorem claim_C4_detector (env : Nat → ProbeEnv) :
    (detectDisplayType env =
      (match probeModern 3777 (env 0) with
       | some r => r
       | none =>
         match probeModern 443 (env 1) with
         | some r => r
         | none =>
           match probeLegacy 443 (env 2) with
           | some r => r
           | none => (.modern, 3777)))
    ∧ (∀ r, probeModern 3777 (env 0) = some r →
        ∀ env' : Nat → ProbeEnv, env' 0 = env 0 → detectDisplayType env' = r)
    ∧ (∀ r, probeModern 3777 (env 0) = none →
        probeModern 443 (env 1) = some r →
        ∀ env' : Nat → ProbeEnv, env' 0 = env 0 → env' 1 = env 1 →
          detectDisplayType env' = r)
    ∧ (∀ (e : ProbeEnv) (port : Nat),
        e.loginStatus = .error () → probeModern port e = none)
    ∧ (∀ (e : ProbeEnv) (port : Nat),
        e.loginPage = .error () → probeLegacy port e = none)
    ∧ (probeModern 3777 (env 0) = none → probeModern 443 (env 1) = none →
        probeLegacy 443 (env 2) = none →
        detectDisplayType env = (.modern, 3777)) := by
  refine ⟨rfl, ?_, ?_, ?_, ?_, ?_⟩
  · intro r h env' h0
    simp only [detectDisplayType, testConfigs, detectLoop, probeCandidate]
    rw [h0, h]
  · intro r h0 h1 env' he0 he1
    simp only [detectDisplayType, testConfigs, detectLoop, probeCandidate]
    rw [he0, h0, he1, h1]
  · intro e port h
    simp only [probeModern, h]
  · intro e port h
    simp only [probeLegacy, h]
  · intro h0 h1 h2
    simp only [detectDisplayType, testConfigs, detectLoop, probeCandidate]
    rw [h0, h1, h2]

/-- A fully-successful modern probe outcome. -/
def probeEnvModernOk : ProbeEnv :=
  ⟨.ok 200, .ok (), .ok (200, .ok (true, true)), .ok (200, true), .ok 200⟩

/-- A probe iteration in which every request raises. -/
def probeEnvAllErr : ProbeEnv :=
  ⟨.error (), .error (), .error (), .error (), .error ()⟩

/-- Witness for C4: a simulated modern endpoint on port 3777 is detected as
`('modern', 3777)` whatever later iterations would have returned, raising
probes are skipped, and the all-failure environment yields the default. -/
theorem claim_C4_detector_witness :
    detectDisplayType (fun _ => probeEnvModernOk) = (.modern, 3777)
    ∧ probeModern 443 probeEnvAllErr = none
    ∧ probeLegacy 443 probeEnvAllErr = none
    ∧ detectDisplayType (fun _ => probeEnvAllErr) = (.modern, 3777) :=
  ⟨(claim_C4_detector (fun _ => probeEnvModernOk)).2.1 (.modern, 3777) rfl
      (fun _ => probeEnvModernOk) rfl,
   (claim_C4_detector (fun _ => probeEnvAllErr)).2.2.2.1 probeEnvAllErr 443 rfl,
   (claim_C4_detector (fun _ => probeEnvAllErr)).2.2.2.2.1 probeEnvAllErr 443 rfl,
   (claim_C4_detector (fun _ => probeEnvAllErr)).2.2.2.2.2 rfl rfl rfl⟩

/-! ## Modern login

`LGWebOSClient.login` (`lg_webos_client.py` lines 59-133) and
`_login_modern` (`lg_webos_unified_client.py` lines 150-205). -/

/-- The JSON value found under `data` in the captchaText response: a dict with
an optional `text` entry, a plain string, or `null`/absent. -/
inductive CaptchaData where
  | dict (text : Option String)
  | str (s : String)
  | null
  deriving Repr, DecidableEq

/-- Parsed captchaText JSON body: `status` field and `data` field. -/
structure CaptchaTextJson where
  status : Option Nat
  data : CaptchaData
  deriving Repr, DecidableEq

/-- Parsed response of `POST /login/login`: `status` field and the truthiness
of `data.get('data', {}).get('result')`. -/
structure LoginPostJson where
  status : Option Nat
  result : Bool
  deriving Repr, DecidableEq

/-- Network outcomes of one modern login flow; `.error ()` is a raised
request exception or, where `.json()` is called, malformed JSON. -/
structure ModernEnv where
  /-- `GET /login/status`: HTTP status. -/
  loginStatus : Except Unit Nat
  /-- `GET /login/checkLoginStatus` + `.json()`: truthiness of
  `data.get('data', False)`. -/
  checkLogin : Except Unit Bool
  /-- `GET /login/captcha?time=...`: HTTP status. -/
  captchaImg : Except Unit Nat
  /-- `GET /login/captchaText`: HTTP status and JSON parse outcome. -/
  captchaText : Except Unit (Nat × Except Unit CaptchaTextJson)
  /-- `POST /login/login` + `.json()`. -/
  postLogin : Except Unit LoginPostJson
  deriving Repr

/-- Observable actions of a modern login flow. -/
inductive MEv where
  | getStatus
  | getCheck
  | getCaptchaImg
  | getCaptchaText
  | postDigest
  deriving Repr, DecidableEq

/-- Python line 107: `captcha_data.get('text') if isinstance(captcha_data,
dict) else captcha_data`; a `None` outcome later makes `first_hash + captcha`
raise `TypeError`, which the outer `except` turns into `return False`. -/
def captchaTextOf : CaptchaData → Option String
  | .dict t => t
  | .str s => some s
  | .null => none

/-- Result of a login flow: the returned boolean, the `_authenticated` flag
after the call, and the event log. -/
structure LoginResult where
  ok : Bool
  auth : Bool
  log : List MEv
  deriving Repr, DecidableEq

/-- `LGWebOSClient.login` (`lg_webos_client.py` lines 59-133).  `auth0` is
`_authenticated` on entry. -/
def modernLogin (env : ModernEnv) (auth0 : Bool) : LoginResult :=
  match env.loginStatus with
  | .error _ => ⟨false, auth0, [.getStatus]⟩
  | .ok s =>
    if s ≠ 200 then ⟨false, auth0, [.getStatus]⟩
    else
      match env.checkLogin with
      | .error _ => ⟨false, auth0, [.getStatus, .getCheck]⟩
      | .ok already =>
        if already then ⟨true, true, [.getStatus, .getCheck]⟩
        else
          match env.captchaImg with
          | .error _ => ⟨false, auth0, [.getStatus, .getCheck, .getCaptchaImg]⟩
          | .ok ci =>
            if ci ≠ 200 then
              ⟨false, auth0, [.getStatus, .getCheck, .getCaptchaImg]⟩
            else
              match env.captchaText with
              | .error _ =>
                ⟨false, auth0,
                 [.getStatus, .getCheck, .getCaptchaImg, .getCaptchaText]⟩
              | .ok (ts, parsed) =>
                if ts ≠ 200 then
                  ⟨false, auth0,
                   [.getStatus, .getCheck, .getCaptchaImg, .getCaptchaText]⟩
                else
                  match parsed with
                  | .error _ =>
                    ⟨false, auth0,
                     [.getStatus, .getCheck, .getCaptchaImg, .getCaptchaText]⟩
                  | .ok j =>
                    if j.status ≠ some 200 then
                      ⟨false, auth0,
                       [.getStatus, .getCheck, .getCaptchaImg, .getCaptchaText]⟩
                    else
                      match captchaTextOf j.data with
                      | none =>
                        ⟨false, auth0,
                         [.getStatus, .getCheck, .getCaptchaImg, .getCaptchaText]⟩
                      | some _ =>
                        match env.postLogin with
                        | .error _ =>
                          ⟨false, auth0,
                           [.getStatus, .getCheck, .getCaptchaImg,
                            .getCaptchaText, .postDigest]⟩
                        | .ok p =>
                          if p.status = some 200 ∧ p.result then
                            ⟨true, true,
                             [.getStatus, .getCheck, .getCaptchaImg,
                              .getCaptchaText, .postDigest]⟩
                          else
                            ⟨false, auth0,
                             [.getStatus, .getCheck, .getCaptchaImg,
                              .getCaptchaText, .postDigest]⟩

/-- `_login_modern` (`lg_webos_unified_client.py` lines 150-205).  The captcha
image GET at line 169 can raise, but its status code is never inspected. -/
def uLoginModern (env : ModernEnv) (auth0 : Bool) : LoginResult :=
  match env.loginStatus with
  | .error _ => ⟨false, auth0, [.getStatus]⟩
  | .ok s =>
    if s ≠ 200 then ⟨false, auth0, [.getStatus]⟩
    else
      match env.checkLogin with
      | .error _ => ⟨false, auth0, [.getStatus, .getCheck]⟩
      | .ok already =>
        if already then ⟨true, true, [.getStatus, .getCheck]⟩
        else
          match env.captchaImg with
          | .error _ => ⟨false, auth0, [.getStatus, .getCheck, .getCaptchaImg]⟩
          | .ok _ =>
            match env.captchaText with
            | .error _ =>
              ⟨false, auth0,
               [.getStatus, .getCheck, .getCaptchaImg, .getCaptchaText]⟩
            | .ok (ts, parsed) =>
              if ts ≠ 200 then
                ⟨false, auth0,
                 [.getStatus, .getCheck, .getCaptchaImg, .getCaptchaText]⟩
              else
                match parsed with
                | .error _ =>
                  ⟨false, auth0,
                   [.getStatus, .getCheck, .getCaptchaImg, .getCaptchaText]⟩
                | .ok j =>
                  if j.status ≠ some 200 then
                    ⟨false, auth0,
                     [.getStatus, .getCheck, .getCaptchaImg, .getCaptchaText]⟩
                  else
                    match captchaTextOf j.data with
                    | none =>
                      ⟨false, auth0,
                       [.getStatus, .getCheck, .getCaptchaImg, .getCaptchaText]⟩
                    | some _ =>
                      match env.postLogin with
                      | .error _ =>
                        ⟨false, auth0,
                         [.getStatus, .getCheck, .getCaptchaImg,
                          .getCaptchaText, .postDigest]⟩
                      | .ok p =>
                        if p.status = some 200 ∧ p.result then
                          ⟨true, true,
                           [.getStatus, .getCheck, .getCaptchaImg,
                            .getCaptchaText, .postDigest]⟩
                        else
                          ⟨false, auth0,
                           [.getStatus, .getCheck, .getCaptchaImg,
                            .getCaptchaText, .postDigest]⟩

/-- An environment whose captcha-image request returns HTTP 500 while every
other step succeeds. -/
def mEnvImg500 : ModernEnv :=
  ⟨.ok 200, .ok false, .ok 500, .ok (200, .ok ⟨some 200, .str "1234"⟩),
   .ok ⟨some 200, true⟩⟩

/-- **C6, counterexample.** In the unified `_login_modern`, a non-200 status
on the captcha image request does not fail the login: with HTTP 500 on the
image request and all other steps succeeding, the flow still submits the
credential digest and returns `True`, refuting the claim for the unified
client. -/
theorem claim_C6_counterexample :
    mEnvImg500.captchaImg = .ok 500
    ∧ uLoginModern mEnvImg500 false =
        ⟨true, true,
         [.getStatus, .getCheck, .getCaptchaImg, .getCaptchaText,
          .postDigest]⟩ :=
  ⟨rfl, rfl⟩

/-- **C6, amended.** In `LGWebOSClient.login` (`lg_webos_client.py`), a
non-200 on the captcha image request, a non-200 on the captcha text request,
or malformed JSON at the text step each cause the login to return `False`
without the digest being submitted.  In the unified `_login_modern`, the
image request's status code is ignored entirely (its result cannot influence
the outcome unless the request raises), but a non-200 on the text request or
malformed JSON still fails without submission. -/
theorem claim_C6_amended (env : ModernEnv) (auth0 : Bool)
    (hs : env.loginStatus = .ok 200) (hc : env.checkLogin = .ok false) :
    (∀ s, env.captchaImg = .ok s → s ≠ 200 →
      modernLogin env auth0 =
        ⟨false, auth0, [.getStatus, .getCheck, .getCaptchaImg]⟩)
    ∧ (∀ p, env.captchaImg = .ok 200 → env.captchaText = .ok p →
        (p.1 ≠ 200 ∨ p.2 = .error ()) →
        modernLogin env auth0 =
          ⟨false, auth0,
           [.getStatus, .getCheck, .getCaptchaImg, .getCaptchaText]⟩)
    ∧ (∀ s p, env.captchaImg = .ok s → env.captchaText = .ok p →
        (p.1 ≠ 200 ∨ p.2 = .error ()) →
        uLoginModern env auth0 =
          ⟨false, auth0,
           [.getStatus, .getCheck, .getCaptchaImg, .getCaptchaText]⟩)
    ∧ (∀ s s', uLoginModern { env with captchaImg := .ok s } auth0 =
        uLoginModern { env with captchaImg := .ok s' } auth0) := by
  refine ⟨?_, ?_, ?_, ?_⟩
  · intro s himg hne
    simp only [modernLogin, hs, hc, himg, if_neg (by omega : ¬(200 : Nat) ≠ 200),
      if_pos hne, if_neg (Bool.false_ne_true)]
  · rintro ⟨ts, parsed⟩ himg htext hfail
    simp only [modernLogin, hs, hc, himg, htext,
      if_neg (by omega : ¬(200 : Nat) ≠ 200), if_neg (Bool.false_ne_true)]
    rcases hfail with h | h
    · simp only at h
      rw [if_pos h]
    · simp only at h
      subst h
      by_cases hts : ts ≠ 200
      · rw [if_pos hts]
      · rw [if_neg hts]
  · rintro s ⟨ts, parsed⟩ himg htext hfail
    simp only [uLoginModern, hs, hc, himg, htext,
      if_neg (by omega : ¬(200 : Nat) ≠ 200), if_neg (Bool.false_ne_true)]
    rcases hfail with h | h
    · simp only at h
      rw [if_pos h]
    · simp only at h
      subst h
      by_cases hts : ts ≠ 200
      · rw [if_pos hts]
      · rw [if_neg hts]
  · intro s s'
    simp only [uLoginModern]

/-- Witness for the amended C6 at concrete environments: captcha-image 500
fails the standalone client before any POST, text-step 404 fails both flows
before any POST. -/
theorem claim_C6_amended_witness :
    modernLogin mEnvImg500 false =
      ⟨false, false, [.getStatus, .getCheck, .getCaptchaImg]⟩
    ∧ modernLogin
        ⟨.ok 200, .ok false, .ok 200,
         .ok (404, .ok ⟨some 200, .str "1234"⟩), .ok ⟨some 200, true⟩⟩ false =
      ⟨false, false, [.getStatus, .getCheck, .getCaptchaImg, .getCaptchaText]⟩
    ∧ uLoginModern
        ⟨.ok 200, .ok false, .ok 500,
         .ok (404, .ok ⟨some 200, .str "1234"⟩), .ok ⟨some 200, true⟩⟩ false =
      ⟨false, false, [.getStatus, .getCheck, .getCaptchaImg, .getCaptchaText]⟩ :=
  ⟨(claim_C6_amended mEnvImg500 false rfl rfl).1 500 rfl (by omega),
   (claim_C6_amended
      ⟨.ok 200, .ok false, .ok 200,
       .ok (404, .ok ⟨some 200, .str "1234"⟩), .ok ⟨some 200, true⟩⟩ false
      rfl rfl).2.1 (404, .ok ⟨some 200, .str "1234"⟩) rfl rfl
        (Or.inl (by omega)),
   (claim_C6_amended
      ⟨.ok 200, .ok false, .ok 500,
       .ok (404, .ok ⟨some 200, .str "1234"⟩), .ok ⟨some 200, true⟩⟩ false
      rfl rfl).2.2.1 500 (404, .ok ⟨some 200, .str "1234"⟩) rfl rfl
        (Or.inl (by omega))⟩

/-! ## Legacy login

`LGWebOSLegacyClient.login` (`lg_webos_legacy_client.py` lines 146-254),
`login_with_retry` (lines 256-292) and the unified `_login_legacy`
(`lg_webos_unified_client.py` lines 207-400).

Note that lines 293-441 of `lg_webos_legacy_client.py` sit after
`login_with_retry`'s final `return False` and are unreachable; the live
`login` body is lines 146-254. -/

/-- Observable actions of a legacy login flow. -/
inductive LEv where
  /-- `GET /` -/
  | getRoot
  /-- `GET /login` -/
  | getLoginPage
  /-- `GET /request/captchapng?timestamp=...` -/
  | getCaptcha
  /-- blocking `input("Enter 4-digit captcha: ")` -/
  | manualPrompt
  /-- `POST /login` of the form `{password, captcha}` -/
  | postForm (captcha : String)
  /-- `self.session = requests.Session()` between attempts; the parameter is
  the value of `_authenticated` right after the replacement block. -/
  | sessionReset (authAfter : Bool)
  deriving Repr, DecidableEq

/-- Network/operator outcomes of one legacy-client login attempt. -/
structure LegacyEnv where
  /-- `GET /`: HTTP status. -/
  root : Except Unit Nat
  /-- `GET /login`: HTTP status. -/
  loginPage : Except Unit Nat
  /-- `GET /request/captchapng`: HTTP status and an image handle. -/
  captchaPng : Except Unit (Nat × Nat)
  /-- raw `pytesseract.image_to_string` output for an image (external captcha
  solver capability); `.error` = unavailable or raised. -/
  ocrText : Nat → Except Unit String
  /-- what `input()` would return. -/
  userInput : String
  /-- `POST /login` for a given captcha: HTTP status and body text. -/
  post : String → Except Unit (Nat × String)

/-- Python `str.strip()`: remove leading and trailing whitespace
(executable model of the `.strip()` calls on response bodies and operator
input). -/
def pyStrip (s : String) : String :=
  String.mk
    (((s.data.dropWhile Char.isWhitespace).reverse.dropWhile
        Char.isWhitespace).reverse)

/-- Python `''.join(filter(str.isdigit, text))`. -/
def digitsOf (s : String) : String :=
  String.mk (s.data.filter Char.isDigit)

/-- `_ocr_captcha` (`lg_webos_legacy_client.py` lines 52-114): returns the
digit-filtered OCR text only when it is exactly 4 digits. -/
def ocrCaptcha (useOcr : Bool) (e : LegacyEnv) (img : Nat) : Option String :=
  if ¬useOcr then none
  else
    match e.ocrText img with
    | .error _ => none
    | .ok text =>
      let t := digitsOf text
      if t.length = 4 then some t else none

/-- Result of a legacy login flow: the returned boolean, `_authenticated`
after the call, and the event log. -/
structure LegacyResult where
  ok : Bool
  auth : Bool
  log : List LEv
  deriving Repr, DecidableEq

/-- `LGWebOSLegacyClient.login` (lines 146-254). -/
def legacyLogin (useOcr : Bool) (captchaArg : Option String) (e : LegacyEnv)
    (auth0 : Bool) : LegacyResult :=
  let submit : String → List LEv → LegacyResult := fun c log =>
    match e.post c with
    | .error _ => ⟨false, auth0, log ++ [.postForm c]⟩
    | .ok (ps, body) =>
      if ps ≠ 200 then ⟨false, auth0, log ++ [.postForm c]⟩
      else if pyStrip body = "success" then ⟨true, true, log ++ [.postForm c]⟩
      else ⟨false, auth0, log ++ [.postForm c]⟩
  match e.root with
  | .error _ => ⟨false, auth0, [.getRoot]⟩
  | .ok rs =>
    if rs ≠ 200 then ⟨false, auth0, [.getRoot]⟩
    else
      match e.loginPage with
      | .error _ => ⟨false, auth0, [.getRoot, .getLoginPage]⟩
      | .ok ls =>
        if ls ≠ 200 then ⟨false, auth0, [.getRoot, .getLoginPage]⟩
        else
          match e.captchaPng with
          | .error _ => ⟨false, auth0, [.getRoot, .getLoginPage, .getCaptcha]⟩
          | .ok (cs, img) =>
            if cs ≠ 200 then
              ⟨false, auth0, [.getRoot, .getLoginPage, .getCaptcha]⟩
            else
              match captchaArg with
              | some c => submit c [.getRoot, .getLoginPage, .getCaptcha]
              | none =>
                if useOcr then
                  match ocrCaptcha useOcr e img with
                  | some c => submit c [.getRoot, .getLoginPage, .getCaptcha]
                  | none =>
                    ⟨false, auth0, [.getRoot, .getLoginPage, .getCaptcha]⟩
                else
                  let c := pyStrip e.userInput
                  if c.length ≠ 4 ∨ ¬(c.data.all Char.isDigit) then
                    ⟨false, auth0,
                     [.getRoot, .getLoginPage, .getCaptcha, .manualPrompt]⟩
                  else
                    submit c
                      [.getRoot, .getLoginPage, .getCaptcha, .manualPrompt]

/-- The attempt loop of `login_with_retry` (lines 272-288): `k` attempts
remain, `i` indexes the per-attempt environment, `auth` is the flag.  After a
failed attempt with attempts remaining, the session is replaced and
`_authenticated` is set to `False` (lines 283-286). -/
def retryGo (useOcr : Bool) (env : Nat → LegacyEnv) :
    Nat → Nat → Bool → LegacyResult
  | 0, _, auth => ⟨false, auth, []⟩
  | k + 1, i, auth =>
    let r := legacyLogin useOcr none (env i) auth
    if r.ok then r
    else if k = 0 then ⟨false, r.auth, r.log⟩
    else
      let rest := retryGo useOcr env k (i + 1) false
      ⟨rest.ok, rest.auth, r.log ++ [.sessionReset false] ++ rest.log⟩

/-- `login_with_retry` (lines 256-292). -/
def loginWithRetry (useOcr : Bool) (maxAttempts : Nat) (env : Nat → LegacyEnv)
    (auth0 : Bool) : LegacyResult :=
  retryGo useOcr env maxAttempts 0 auth0

/-- `logout` (lines 443-456): on a response (any status) the flag is cleared
and the result is `status == 200`; a raised request leaves the flag as it
was. -/
def legacyLogout (resp : Except Unit Nat) (auth0 : Bool) : Bool × Bool :=
  match resp with
  | .error _ => (false, auth0)
  | .ok s => (decide (s = 200), false)

/-! ### Unified `_login_legacy` -/

/-- OCR capability configuration of `_login_legacy` (lines 209-251): which
imports succeeded and whether the EasyOCR reader initialised. -/
structure UOcrCfg where
  hasEasy : Bool
  hasTess : Bool
  readerOk : Bool
  deriving Repr, DecidableEq

/-- Network/operator outcomes of one `_login_legacy` attempt. -/
structure ULegacyEnv where
  /-- `GET /`: status (discarded; only a raise matters). -/
  root : Except Unit Nat
  /-- `GET /login`: status (discarded; only a raise matters). -/
  loginPage : Except Unit Nat
  /-- `GET /request/captchapng`: HTTP status and an image handle. -/
  captchaPng : Except Unit (Nat × Nat)
  /-- `easyocr` `reader.readtext(..., detail=0)` results. -/
  easyText : Nat → Except Unit (List String)
  /-- raw `pytesseract` text. -/
  tessText : Nat → Except Unit String
  /-- what `input()` would return. -/
  userInput : String
  /-- `POST /login` for a given captcha: the body text (the unified client
  never checks this response's status code). -/
  post : String → Except Unit String

/-- The EasyOCR block (lines 274-305). -/
def uEasyOcr (e : ULegacyEnv) (img : Nat) : Option String :=
  match e.easyText img with
  | .error _ => none
  | .ok results =>
    if results ≠ [] then
      let text := String.join results
      let c := digitsOf text
      if c.length = 4 then some c else none
    else none

/-- The Tesseract fallback block (lines 308-350). -/
def uTessOcr (e : ULegacyEnv) (img : Nat) : Option String :=
  match e.tessText img with
  | .error _ => none
  | .ok text =>
    let c := digitsOf text
    if c.length = 4 then some c else none

/-- The OCR pipeline of one `_login_legacy` attempt (lines 271-350): EasyOCR
when imported and initialised, Tesseract as fallback. -/
def uOcr (cfg : UOcrCfg) (e : ULegacyEnv) (img : Nat) : Option String :=
  if cfg.hasEasy || cfg.hasTess then
    let viaEasy :=
      if cfg.hasEasy && cfg.readerOk then uEasyOcr e img else none
    match viaEasy with
    | some c => some c
    | none => if cfg.hasTess then uTessOcr e img else none
  else none

/-- The attempt loop of `_login_legacy` (lines 253-400), `k` attempts
remaining, `attempt` the 1-based Python loop variable.  OCR failure on an
early attempt (Python `attempt < max_attempts - 2`, evaluated over the
integers) replaces the session — without touching `_authenticated` — and
retries; on a late attempt it falls back to blocking manual entry.  A failed
POST with attempts remaining also replaces the session without touching the
flag. -/
def uLegacyGo (cfg : UOcrCfg) (env : Nat → ULegacyEnv) (maxA : Nat) :
    Nat → Nat → Bool → LegacyResult
  | 0, _, auth => ⟨false, auth, []⟩
  | k + 1, attempt, auth =>
    let e := env attempt
    let cont : List LEv → LegacyResult := fun log =>
      let rest := uLegacyGo cfg env maxA k (attempt + 1) auth
      ⟨rest.ok, rest.auth, log ++ rest.log⟩
    let submit : String → List LEv → LegacyResult := fun c log =>
      match e.post c with
      | .error _ => cont (log ++ [.postForm c])
      | .ok body =>
        if pyStrip body = "success" then ⟨true, true, log ++ [.postForm c]⟩
        else if (attempt : Int) < (maxA : Int) then
          cont (log ++ [.postForm c, .sessionReset auth])
        else cont (log ++ [.postForm c])
    match e.root with
    | .error _ => cont [.getRoot]
    | .ok _ =>
      match e.loginPage with
      | .error _ => cont [.getRoot, .getLoginPage]
      | .ok _ =>
        match e.captchaPng with
        | .error _ => cont [.getRoot, .getLoginPage, .getCaptcha]
        | .ok (cs, img) =>
          if cs ≠ 200 then cont [.getRoot, .getLoginPage, .getCaptcha]
          else
            match uOcr cfg e img with
            | some c => submit c [.getRoot, .getLoginPage, .getCaptcha]
            | none =>
              if (attempt : Int) < (maxA : Int) - 2 then
                cont [.getRoot, .getLoginPage, .getCaptcha, .sessionReset auth]
              else
                let c := pyStrip e.userInput
                if c.length ≠ 4 then
                  cont [.getRoot, .getLoginPage, .getCaptcha, .manualPrompt]
                else
                  submit c
                    [.getRoot, .getLoginPage, .getCaptcha, .manualPrompt]

/-- `_login_legacy` (lines 207-400). -/
def uLoginLegacy (cfg : UOcrCfg) (env : Nat → ULegacyEnv) (maxA : Nat)
    (auth0 : Bool) : LegacyResult :=
  uLegacyGo cfg env maxA maxA 1 auth0

/-! ### Helper predicates and single-attempt lemmas -/

/-- Whether an event is a login-form POST. -/
def isPost : LEv → Bool
  | .postForm _ => true
  | _ => false

/-- Number of login-form POSTs in a log. -/
def countPosts (log : List LEv) : Nat := log.countP isPost

/-- The captcha an OCR-driven legacy-client attempt would POST, when the
attempt reaches the POST step (all preliminary requests succeed with status
200 and OCR yields a confident 4-digit result). -/
def attemptSubmits (e : LegacyEnv) : Option String :=
  match e.root with
  | .error _ => none
  | .ok rs =>
    if rs ≠ 200 then none
    else
      match e.loginPage with
      | .error _ => none
      | .ok ls =>
        if ls ≠ 200 then none
        else
          match e.captchaPng with
          | .error _ => none
          | .ok (cs, img) =>
            if cs ≠ 200 then none else ocrCaptcha true e img

/-- Whether the server accepts a legacy-client POST of captcha `c`
(status 200 and body `"success"`). -/
def postSuccess (e : LegacyEnv) (c : String) : Bool :=
  match e.post c with
  | .error _ => false
  | .ok (ps, body) => ps == 200 && pyStrip body == "success"

theorem legacyLogin_submit (e : LegacyEnv) (auth0 : Bool) (c : String)
    (h : attemptSubmits e = some c) :
    legacyLogin true none e auth0 =
      ⟨postSuccess e c, if postSuccess e c then true else auth0,
       [.getRoot, .getLoginPage, .getCaptcha, .postForm c]⟩ := by
  simp only [attemptSubmits] at h
  simp only [legacyLogin, postSuccess]
  cases hroot : e.root with
  | error u => simp [hroot] at h
  | ok rs =>
    simp only [hroot] at h ⊢
    by_cases hrs : rs = 200
    · subst hrs
      simp only [ne_eq, not_true_eq_false, if_false] at h ⊢
      cases hpage : e.loginPage with
      | error u => simp [hpage] at h
      | ok ls =>
        simp only [hpage] at h ⊢
        by_cases hls : ls = 200
        · subst hls
          simp only [ne_eq, not_true_eq_false, if_false] at h ⊢
          cases hpng : e.captchaPng with
          | error u => simp [hpng] at h
          | ok p =>
            obtain ⟨cs, img⟩ := p
            simp only [hpng] at h ⊢
            by_cases hcs : cs = 200
            · subst hcs
              simp only [ne_eq, not_true_eq_false, if_false] at h ⊢
              simp only [h, if_true]
              split
              · -- the POST succeeded
                rename_i heq
                split at heq
                · simp at heq
                · rename_i ps body heq2
                  rw [Bool.and_eq_true, beq_iff_eq, beq_iff_eq] at heq
                  obtain ⟨hps, hb⟩ := heq
                  subst hps
                  simp [heq2, hb]
              · -- the POST failed
                rename_i heq
                split at heq
                · rename_i u heq2
                  simp [heq2]
                · rename_i ps body heq2
                  try simp only [heq2]
                  by_cases hps : ps = 200
                  · subst hps
                    have hb : pyStrip body ≠ "success" := by
                      intro hb
                      exact heq (by simp [hb])
                    simp [hb]
                  · simp [hps]
            · simp [hcs] at h
        · simp [hls] at h
    · simp [hrs] at h

theorem legacyLogin_no_prompt (ca : Option String) (e : LegacyEnv)
    (auth0 : Bool) :
    LEv.manualPrompt ∉ (legacyLogin true ca e auth0).log := by
  simp only [legacyLogin]
  repeat' split
  all_goals (try simp_all)

theorem legacyLogin_no_reset (useOcr : Bool) (ca : Option String)
    (e : LegacyEnv) (auth0 : Bool) (b : Bool) :
    LEv.sessionReset b ∉ (legacyLogin useOcr ca e auth0).log := by
  simp only [legacyLogin]
  repeat' split
  all_goals simp_all

theorem legacyLogin_ok_success (useOcr : Bool) (ca : Option String)
    (e : LegacyEnv) (auth0 : Bool)
    (h : (legacyLogin useOcr ca e auth0).ok = true) :
    ∃ c ps body, e.post c = .ok (ps, body) ∧ ps = 200
      ∧ pyStrip body = "success" := by
  simp only [legacyLogin] at h
  repeat' split at h
  all_goals simp_all
  all_goals exact ⟨_, _, _, by assumption, rfl, by assumption⟩

theorem legacyLogin_auth (useOcr : Bool) (ca : Option String) (e : LegacyEnv)
    (auth0 : Bool)
    (h : (legacyLogin useOcr ca e auth0).auth = true) :
    auth0 = true ∨ (legacyLogin useOcr ca e auth0).ok = true := by
  simp only [legacyLogin] at h ⊢
  repeat' split at h
  all_goals simp_all

/-! ### Retry-loop lemmas for `login_with_retry` -/

theorem retryGo_no_prompt (env : Nat → LegacyEnv) :
    ∀ (k i : Nat) (auth : Bool),
      LEv.manualPrompt ∉ (retryGo true env k i auth).log := by
  intro k
  induction k with
  | zero => intro i auth; simp [retryGo]
  | succ n ih =>
    intro i auth
    simp only [retryGo]
    split
    · exact legacyLogin_no_prompt none (env i) auth
    · split
      · exact legacyLogin_no_prompt none (env i) auth
      · intro hmem
        simp only [List.mem_append, List.mem_singleton] at hmem
        rcases hmem with (h1 | h2) | h3
        · exact legacyLogin_no_prompt none (env i) auth h1
        · simp at h2
        · exact ih (i + 1) false h3

theorem retryGo_resets_false (useOcr : Bool) (env : Nat → LegacyEnv) :
    ∀ (k i : Nat) (auth : Bool) (b : Bool),
      LEv.sessionReset b ∈ (retryGo useOcr env k i auth).log → b = false := by
  intro k
  induction k with
  | zero => intro i auth b h; simp [retryGo] at h
  | succ n ih =>
    intro i auth b h
    simp only [retryGo] at h
    split at h
    · exact absurd h (legacyLogin_no_reset useOcr none (env i) auth b)
    · split at h
      · exact absurd h (legacyLogin_no_reset useOcr none (env i) auth b)
      · simp only [List.mem_append, List.mem_singleton] at h
        rcases h with (h1 | h2) | h3
        · exact absurd h1 (legacyLogin_no_reset useOcr none (env i) auth b)
        · injection h2
        · exact ih (i + 1) false b h3

theorem retryGo_ok_success (useOcr : Bool) (env : Nat → LegacyEnv) :
    ∀ (k i : Nat) (auth : Bool),
      (retryGo useOcr env k i auth).ok = true →
      ∃ j c ps body, (env j).post c = .ok (ps, body) ∧ ps = 200
        ∧ pyStrip body = "success" := by
  intro k
  induction k with
  | zero => intro i auth h; simp [retryGo] at h
  | succ n ih =>
    intro i auth h
    simp only [retryGo] at h
    split at h
    · obtain ⟨c, ps, body, hp, h200, hs⟩ :=
        legacyLogin_ok_success useOcr none (env i) auth h
      exact ⟨i, c, ps, body, hp, h200, hs⟩
    · split at h
      · simp at h
      · exact ih (i + 1) false h

theorem retryGo_auth (useOcr : Bool) (env : Nat → LegacyEnv) :
    ∀ (k i : Nat) (auth : Bool),
      (retryGo useOcr env k i auth).auth = true →
      auth = true ∨ (retryGo useOcr env k i auth).ok = true := by
  intro k
  induction k with
  | zero => intro i auth h; simp [retryGo] at h ⊢; exact h
  | succ n ih =>
    intro i auth h
    by_cases hok : (legacyLogin useOcr none (env i) auth).ok = true
    · right
      simp only [retryGo, if_pos hok]
      exact hok
    · by_cases hn : n = 0
      · subst hn
        simp only [retryGo, if_neg hok, if_pos rfl] at h
        rcases legacyLogin_auth useOcr none (env i) auth h with ha | hk
        · exact Or.inl ha
        · exact absurd hk hok
      · simp only [retryGo, if_neg hok, if_neg hn] at h ⊢
        rcases ih (i + 1) false h with ha | hk
        · exact absurd ha (by simp)
        · exact Or.inr hk

theorem retryGo_allFail (env : Nat → LegacyEnv) :
    ∀ (k i : Nat) (auth : Bool),
      (∀ j, j < k → ∃ c, attemptSubmits (env (i + j)) = some c
        ∧ postSuccess (env (i + j)) c = false) →
      (retryGo true env k i auth).ok = false
      ∧ countPosts (retryGo true env k i auth).log = k := by
  intro k
  induction k with
  | zero => intro i auth _; simp [retryGo, countPosts]
  | succ n ih =>
    intro i auth hall
    obtain ⟨c, hsub, hfail⟩ := by
      have h0 := hall 0 (by omega)
      rwa [Nat.add_zero] at h0
    have hr := legacyLogin_submit (env i) auth c hsub
    simp only [retryGo, hr, hfail]
    by_cases hn : n = 0
    · subst hn
      simp [countPosts, isPost, List.countP_cons]
    · have hrest := ih (i + 1) false (fun j hj => by
        have h1 := hall (j + 1) (by omega)
        have hidx : i + (j + 1) = i + 1 + j := by omega
        rwa [hidx] at h1)
      rw [if_neg hn]
      refine ⟨hrest.1, ?_⟩
      simp only [countPosts, List.countP_append] at hrest ⊢
      simp [isPost, List.countP_cons, hrest.2]

/-! ### Unified `_login_legacy` lemmas -/

/-- Whether an attempt's preliminary requests reach the OCR stage. -/
def uAttemptReady (e : ULegacyEnv) : Bool :=
  match e.root, e.loginPage, e.captchaPng with
  | .ok _, .ok _, .ok (cs, _) => cs == 200
  | _, _, _ => false

/-- The captcha image handle of an attempt (0 when the request failed). -/
def uAttemptImg (e : ULegacyEnv) : Nat :=
  match e.captchaPng with
  | .ok (_, img) => img
  | _ => 0

/-- Whether the server accepts a unified-legacy POST of captcha `c`. -/
def uPostSuccess (e : ULegacyEnv) (c : String) : Bool :=
  match e.post c with
  | .error _ => false
  | .ok body => pyStrip body == "success"

theorem uGo_resets_carry (cfg : UOcrCfg) (env : Nat → ULegacyEnv) (maxA : Nat) :
    ∀ (k attempt : Nat) (auth b : Bool),
      LEv.sessionReset b ∈ (uLegacyGo cfg env maxA k attempt auth).log →
      b = auth := by
  intro k
  induction k with
  | zero => intro a auth b h; simp [uLegacyGo] at h
  | succ n ih =>
    intro attempt auth b h
    simp only [uLegacyGo] at h
    repeat' split at h
    all_goals (try simp at h)
    all_goals
      first
      | exact ih _ _ _ h
      | (rcases h with h | h
         · exact h
         · exact ih _ _ _ h)

theorem uAttemptReady_elim (e : ULegacyEnv) (h : uAttemptReady e = true) :
    ∃ r p img, e.root = .ok r ∧ e.loginPage = .ok p
      ∧ e.captchaPng = .ok (200, img) ∧ uAttemptImg e = img := by
  rcases hroot : e.root with u | r
  · simp [uAttemptReady, hroot] at h
  · rcases hpage : e.loginPage with u | p
    · simp [uAttemptReady, hroot, hpage] at h
    · rcases hpng : e.captchaPng with u | ⟨cs, img⟩
      · simp [uAttemptReady, hroot, hpage, hpng] at h
      · simp only [uAttemptReady, hroot, hpage, hpng, beq_iff_eq] at h
        subst h
        exact ⟨r, p, img, rfl, rfl, rfl, by simp [uAttemptImg, hpng]⟩

theorem uGo_ok_success (cfg : UOcrCfg) (env : Nat → ULegacyEnv) (maxA : Nat) :
    ∀ (k attempt : Nat) (auth : Bool),
      (uLegacyGo cfg env maxA k attempt auth).ok = true →
      ∃ i c body, (env i).post c = .ok body ∧ pyStrip body = "success" := by
  intro k
  induction k with
  | zero => intro a auth h; simp [uLegacyGo] at h
  | succ n ih =>
    intro attempt auth h
    simp only [uLegacyGo] at h
    repeat' split at h
    all_goals (try simp at h)
    all_goals
      first
      | exact ih _ _ h
      | exact ⟨_, _, _, by assumption, by assumption⟩

theorem uGo_auth_eq (cfg : UOcrCfg) (env : Nat → ULegacyEnv) (maxA : Nat) :
    ∀ (k attempt : Nat) (auth : Bool) (res : LegacyResult),
      uLegacyGo cfg env maxA k attempt auth = res → res.ok = false →
      res.auth = auth := by
  intro k
  induction k with
  | zero =>
    intro a auth res h0 _
    simp only [uLegacyGo] at h0
    subst h0
    rfl
  | succ n ih =>
    intro attempt auth res h0 h1
    simp only [uLegacyGo] at h0
    repeat' split at h0
    all_goals subst h0
    all_goals (try simp at h1 ⊢)
    all_goals exact ih _ _ _ rfl h1

theorem uGo_auth_unchanged (cfg : UOcrCfg) (env : Nat → ULegacyEnv)
    (maxA : Nat) (k attempt : Nat) (auth : Bool)
    (h : (uLegacyGo cfg env maxA k attempt auth).ok = false) :
    (uLegacyGo cfg env maxA k attempt auth).auth = auth :=
  uGo_auth_eq cfg env maxA k attempt auth _ rfl h

theorem uGo_allOcrFail_false (cfg : UOcrCfg) (env : Nat → ULegacyEnv)
    (maxA : Nat)
    (hall : ∀ j, uAttemptReady (env j) = true
      ∧ uOcr cfg (env j) (uAttemptImg (env j)) = none
      ∧ (pyStrip (env j).userInput).length ≠ 4) :
    ∀ (k attempt : Nat) (auth : Bool),
      (uLegacyGo cfg env maxA k attempt auth).ok = false := by
  intro k
  induction k with
  | zero => intro a auth; simp [uLegacyGo]
  | succ n ih =>
    intro attempt auth
    obtain ⟨hready, hocr, hinv⟩ := hall attempt
    obtain ⟨r, p, img, hroot, hpage, hpng, himg⟩ := uAttemptReady_elim _ hready
    rw [himg] at hocr
    simp only [uLegacyGo, hroot, hpage, hpng, hocr, ne_eq, not_true_eq_false,
      if_false]
    by_cases hlt : (attempt : Int) < (maxA : Int) - 2
    · rw [if_pos hlt]
      exact ih (attempt + 1) auth
    · rw [if_neg hlt, if_pos hinv]
      exact ih (attempt + 1) auth

theorem uGo_prompt (cfg : UOcrCfg) (env : Nat → ULegacyEnv) (maxA : Nat)
    (hall : ∀ j, uAttemptReady (env j) = true
      ∧ uOcr cfg (env j) (uAttemptImg (env j)) = none
      ∧ (pyStrip (env j).userInput).length ≠ 4) :
    ∀ (k attempt : Nat) (auth : Bool), attempt + k = maxA + 1 → 1 ≤ k →
      LEv.manualPrompt ∈ (uLegacyGo cfg env maxA k attempt auth).log := by
  intro k
  induction k with
  | zero => intro a auth _ h1; omega
  | succ n ih =>
    intro attempt auth hsum _
    obtain ⟨hready, hocr, hinv⟩ := hall attempt
    obtain ⟨r, p, img, hroot, hpage, hpng, himg⟩ := uAttemptReady_elim _ hready
    rw [himg] at hocr
    simp only [uLegacyGo, hroot, hpage, hpng, hocr, ne_eq, not_true_eq_false,
      if_false]
    by_cases hlt : (attempt : Int) < (maxA : Int) - 2
    · rw [if_pos hlt]
      have h1 : 1 ≤ n := by omega
      have hmem := ih (attempt + 1) auth (by omega) h1
      simp [hmem]
    · rw [if_neg hlt, if_pos hinv]
      simp

theorem uGo_allSubmitFail (cfg : UOcrCfg) (env : Nat → ULegacyEnv) (maxA : Nat)
    (hall : ∀ j, ∃ c, uAttemptReady (env j) = true
      ∧ uOcr cfg (env j) (uAttemptImg (env j)) = some c
      ∧ uPostSuccess (env j) c = false) :
    ∀ (k attempt : Nat) (auth : Bool),
      (uLegacyGo cfg env maxA k attempt auth).ok = false
      ∧ countPosts (uLegacyGo cfg env maxA k attempt auth).log = k := by
  intro k
  induction k with
  | zero => intro a auth; simp [uLegacyGo, countPosts]
  | succ n ih =>
    intro attempt auth
    obtain ⟨c, hready, hocr, hfail⟩ := hall attempt
    obtain ⟨r, p, img, hroot, hpage, hpng, himg⟩ := uAttemptReady_elim _ hready
    rw [himg] at hocr
    simp only [uLegacyGo, hroot, hpage, hpng, hocr, ne_eq, not_true_eq_false,
      if_false]
    obtain ⟨iho, ihc⟩ := ih (attempt + 1) auth
    rcases hpost : (env attempt).post c with u | body
    · simp only [hpost]
      refine ⟨iho, ?_⟩
      simp [countPosts, List.countP_cons, isPost] at ihc ⊢
      exact ihc
    · have hb : pyStrip body ≠ "success" := by
        simp only [uPostSuccess, hpost, beq_eq_false_iff_ne, ne_eq] at hfail
        exact hfail
      simp only [hpost, if_neg hb]
      by_cases hlt : (attempt : Int) < (maxA : Int)
      · rw [if_pos hlt]
        refine ⟨iho, ?_⟩
        simp [countPosts, List.countP_cons, isPost] at ihc ⊢
        exact ihc
      · rw [if_neg hlt]
        refine ⟨iho, ?_⟩
        simp [countPosts, List.countP_cons, isPost] at ihc ⊢
        exact ihc


/-! ### Client construction states (`__init__` methods) -/

/-- `LGWebOSClient.__init__` (`lg_webos_client.py` lines 28-41). -/
structure ModernClientState where
  host : String
  port : Nat
  password : String
  authenticated : Bool
  deriving Repr, DecidableEq

def mkModernClient (host password : String) (port : Nat) : ModernClientState :=
  ⟨host, port, password, false⟩

/-- `LGWebOSLegacyClient.__init__` (`lg_webos_legacy_client.py` lines
34-50). -/
structure LegacyClientState where
  host : String
  port : Nat
  password : String
  useOcr : Bool
  authenticated : Bool
  deriving Repr, DecidableEq

def mkLegacyClient (host password : String) (port : Nat) (useOcr : Bool) :
    LegacyClientState :=
  ⟨host, port, password, useOcr, false⟩

/-- Unified `LGWebOSClient.__init__` (`lg_webos_unified_client.py` lines
27-47). -/
structure UnifiedClientState where
  host : String
  password : String
  port : Option Nat
  displayType : Option DisplayType
  authenticated : Bool
  deriving Repr, DecidableEq

def mkUnifiedClient (host password : String) (port : Option Nat)
    (dt : Option DisplayType) : UnifiedClientState :=
  ⟨host, password, port, dt, false⟩

/-! ### Auth-flag lemmas for the login flows -/

theorem modernLogin_auth (env : ModernEnv) (a : Bool)
    (h : (modernLogin env a).auth = true) :
    a = true ∨ env.checkLogin = .ok true
      ∨ ∃ pr, env.postLogin = .ok pr ∧ pr.status = some 200
          ∧ pr.result = true := by
  simp only [modernLogin] at h
  repeat' split at h
  all_goals (try simp at h)
  all_goals
    first
    | exact Or.inl h
    | exact Or.inr (Or.inr ⟨_, by assumption, by tauto, by tauto⟩)
    | (apply Or.inr; apply Or.inl; simp_all)

theorem uLoginModern_auth (env : ModernEnv) (a : Bool)
    (h : (uLoginModern env a).auth = true) :
    a = true ∨ env.checkLogin = .ok true
      ∨ ∃ pr, env.postLogin = .ok pr ∧ pr.status = some 200
          ∧ pr.result = true := by
  simp only [uLoginModern] at h
  repeat' split at h
  all_goals (try simp at h)
  all_goals
    first
    | exact Or.inl h
    | exact Or.inr (Or.inr ⟨_, by assumption, by tauto, by tauto⟩)
    | (apply Or.inr; apply Or.inl; simp_all)

theorem legacyLogin_auth_success (u : Bool) (ca : Option String)
    (e : LegacyEnv) (a : Bool) (h : (legacyLogin u ca e a).auth = true) :
    a = true ∨ ∃ c ps body, e.post c = .ok (ps, body) ∧ ps = 200
      ∧ pyStrip body = "success" := by
  rcases legacyLogin_auth u ca e a h with ha | hok
  · exact Or.inl ha
  · exact Or.inr (legacyLogin_ok_success u ca e a hok)

theorem loginWithRetry_auth_success (u : Bool) (maxA : Nat)
    (env : Nat → LegacyEnv) (a : Bool)
    (h : (loginWithRetry u maxA env a).auth = true) :
    a = true ∨ ∃ j c ps body, (env j).post c = .ok (ps, body) ∧ ps = 200
      ∧ pyStrip body = "success" := by
  simp only [loginWithRetry] at h
  rcases retryGo_auth u env maxA 0 a h with ha | hok
  · exact Or.inl ha
  · exact Or.inr (retryGo_ok_success u env maxA 0 a hok)

theorem uLoginLegacy_auth_success (cfg : UOcrCfg) (uenv : Nat → ULegacyEnv)
    (maxA : Nat) (a : Bool) (h : (uLoginLegacy cfg uenv maxA a).auth = true) :
    a = true ∨ ∃ i c body, (uenv i).post c = .ok body
      ∧ pyStrip body = "success" := by
  simp only [uLoginLegacy] at h
  by_cases hok : (uLegacyGo cfg uenv maxA maxA 1 a).ok = true
  · exact Or.inr (uGo_ok_success cfg uenv maxA maxA 1 a hok)
  · have hf : (uLegacyGo cfg uenv maxA maxA 1 a).ok = false := by
      revert hok
      cases (uLegacyGo cfg uenv maxA maxA 1 a).ok <;> simp
    exact Or.inl ((uGo_auth_unchanged cfg uenv maxA maxA 1 a hf) ▸ h)

/-! ### Concrete environments used as inputs for C1, C7, C8 -/

/-- A legacy-client attempt whose POST always answers `200 "restricted"`,
with OCR confidently reading `"1234"`. -/
def lEnvRestricted : LegacyEnv :=
  ⟨.ok 200, .ok 200, .ok (200, 0), fun _ => .ok "1234", "",
   fun _ => .ok (200, "restricted")⟩

/-- A legacy-client attempt on which OCR yields only two digits (no confident
4-digit result). -/
def lEnvOcrFail : LegacyEnv :=
  ⟨.ok 200, .ok 200, .ok (200, 0), fun _ => .ok "12", "1234",
   fun _ => .ok (200, "fail")⟩

/-- A unified-legacy attempt on which EasyOCR returns nothing and manual
input is invalid. -/
def uEnvOcrFail : ULegacyEnv :=
  ⟨.ok 200, .ok 200, .ok (200, 0), fun _ => .ok [], fun _ => .error (), "xx",
   fun _ => .ok "fail"⟩

/-- A unified-legacy attempt whose POST always answers `"restricted"`. -/
def uEnvRestricted : ULegacyEnv :=
  ⟨.ok 200, .ok 200, .ok (200, 0), fun _ => .ok ["1234"],
   fun _ => .error (), "", fun _ => .ok "restricted"⟩

/-- **C1, counterexample.** With every POST answered by `200 "restricted"`
and two attempts allowed, `login_with_retry` performs a second full attempt —
fresh session (`sessionReset`), fresh captcha fetch and a second POST — and
the unified `_login_legacy` behaves identically, refuting "terminates
immediately ... no further attempt". -/
theorem claim_C1_counterexample :
    lEnvRestricted.post "1234" = .ok (200, "restricted")
    ∧ loginWithRetry true 2 (fun _ => lEnvRestricted) false =
        ⟨false, false,
         [.getRoot, .getLoginPage, .getCaptcha, .postForm "1234",
          .sessionReset false,
          .getRoot, .getLoginPage, .getCaptcha, .postForm "1234"]⟩
    ∧ uLoginLegacy ⟨true, false, true⟩ (fun _ => uEnvRestricted) 2 false =
        ⟨false, false,
         [.getRoot, .getLoginPage, .getCaptcha, .postForm "1234",
          .sessionReset false,
          .getRoot, .getLoginPage, .getCaptcha, .postForm "1234"]⟩ :=
  ⟨rfl, by decide, by decide⟩

/-- **C1, amended.** The live legacy login code never inspects the response
body for `"restricted"`: such a body fails the attempt exactly like any other
body that is not `"success"`, and both retry loops (`login_with_retry` and
the unified `_login_legacy`) keep retrying with a fresh session and a fresh
captcha while attempts remain — when every attempt reaches the POST and is
rejected, exactly `max_attempts` POSTs are issued and the overall result is
failure.  (A `"restricted"` check exists only in unreachable code after
`login_with_retry`'s `return False`.) -/
theorem claim_C1_amended (maxA : Nat) (auth0 : Bool)
    (env : Nat → LegacyEnv) (uenv : Nat → ULegacyEnv) (cfg : UOcrCfg)
    (h : ∀ j, j < maxA → ∃ c, attemptSubmits (env j) = some c
      ∧ postSuccess (env j) c = false)
    (hu : ∀ j, ∃ c, uAttemptReady (uenv j) = true
      ∧ uOcr cfg (uenv j) (uAttemptImg (uenv j)) = some c
      ∧ uPostSuccess (uenv j) c = false) :
    ((loginWithRetry true maxA env auth0).ok = false
      ∧ countPosts (loginWithRetry true maxA env auth0).log = maxA)
    ∧ ((uLoginLegacy cfg uenv maxA auth0).ok = false
      ∧ countPosts (uLoginLegacy cfg uenv maxA auth0).log = maxA) := by
  constructor
  · simp only [loginWithRetry]
    exact retryGo_allFail env maxA 0 auth0
      (fun j hj => by rw [Nat.zero_add]; exact h j hj)
  · simp only [uLoginLegacy]
    exact uGo_allSubmitFail cfg uenv maxA hu maxA 1 auth0

/-- Witness for the amended C1 at the `"restricted"` environments with two
attempts: both loops fail with exactly two POSTs. -/
theorem claim_C1_amended_witness :
    ((loginWithRetry true 2 (fun _ => lEnvRestricted) false).ok = false
      ∧ countPosts (loginWithRetry true 2 (fun _ => lEnvRestricted) false).log
          = 2)
    ∧ ((uLoginLegacy ⟨true, false, true⟩ (fun _ => uEnvRestricted) 2
          false).ok = false
      ∧ countPosts (uLoginLegacy ⟨true, false, true⟩
          (fun _ => uEnvRestricted) 2 false).log = 2) :=
  claim_C1_amended 2 false (fun _ => lEnvRestricted)
    (fun _ => uEnvRestricted) ⟨true, false, true⟩
    (fun _ _ => ⟨"1234",
      (by decide : attemptSubmits lEnvRestricted = some "1234"),
      (by decide : postSuccess lEnvRestricted "1234" = false)⟩)
    (fun _ => ⟨"1234",
      (by decide : uAttemptReady uEnvRestricted = true),
      (by decide : uOcr ⟨true, false, true⟩ uEnvRestricted
        (uAttemptImg uEnvRestricted) = some "1234"),
      (by decide : uPostSuccess uEnvRestricted "1234" = false)⟩)

/-- **C7, counterexample.** With OCR enabled and failing on every attempt,
the standalone legacy client exhausts its retry budget and returns `False`
without ever requesting manual captcha entry: no `manualPrompt` event occurs,
refuting the claimed out-of-band fallback for `LGWebOSLegacyClient.login`. -/
theorem claim_C7_counterexample :
    ocrCaptcha true lEnvOcrFail 0 = none
    ∧ loginWithRetry true 3 (fun _ => lEnvOcrFail) false =
        ⟨false, false,
         [.getRoot, .getLoginPage, .getCaptcha, .sessionReset false,
          .getRoot, .getLoginPage, .getCaptcha, .sessionReset false,
          .getRoot, .getLoginPage, .getCaptcha]⟩
    ∧ LEv.manualPrompt ∉
        (loginWithRetry true 3 (fun _ => lEnvOcrFail) false).log :=
  ⟨by decide, by decide, by decide⟩

/-- **C7, amended.** Only the unified `_login_legacy` falls back to blocking
manual entry: when OCR yields no confident result on an attempt later than
`max_attempts - 3`, it prompts the operator before giving up, and with
everything failing the overall run is a failure that did request manual
entry.  The standalone legacy client with OCR enabled never prompts — a
solve-failure immediately fails the attempt (and `login_with_retry` therefore
never prompts either).  In both clients, exhausting solve-failures never
yields a silent success: a `True` result requires a server response whose
body is exactly `"success"`. -/
theorem claim_C7_amended :
    (∀ (ca : Option String) (e : LegacyEnv) (a : Bool),
      LEv.manualPrompt ∉ (legacyLogin true ca e a).log)
    ∧ (∀ (maxA : Nat) (env : Nat → LegacyEnv) (a : Bool),
        LEv.manualPrompt ∉ (loginWithRetry true maxA env a).log)
    ∧ (∀ (cfg : UOcrCfg) (uenv : Nat → ULegacyEnv) (maxA : Nat) (a : Bool),
        1 ≤ maxA →
        (∀ j, uAttemptReady (uenv j) = true
          ∧ uOcr cfg (uenv j) (uAttemptImg (uenv j)) = none
          ∧ (pyStrip (uenv j).userInput).length ≠ 4) →
        (uLoginLegacy cfg uenv maxA a).ok = false
        ∧ LEv.manualPrompt ∈ (uLoginLegacy cfg uenv maxA a).log)
    ∧ (∀ (u : Bool) (maxA : Nat) (env : Nat → LegacyEnv) (a : Bool),
        (loginWithRetry u maxA env a).ok = true →
        ∃ j c ps body, (env j).post c = .ok (ps, body) ∧ ps = 200
          ∧ pyStrip body = "success")
    ∧ (∀ (cfg : UOcrCfg) (uenv : Nat → ULegacyEnv) (maxA : Nat) (a : Bool),
        (uLoginLegacy cfg uenv maxA a).ok = true →
        ∃ i c body, (uenv i).post c = .ok body ∧ pyStrip body = "success") := by
  refine ⟨legacyLogin_no_prompt, ?_, ?_, ?_, ?_⟩
  · intro maxA env a
    simp only [loginWithRetry]
    exact retryGo_no_prompt env maxA 0 a
  · intro cfg uenv maxA a hmax hall
    constructor
    · simp only [uLoginLegacy]
      exact uGo_allOcrFail_false cfg uenv maxA hall maxA 1 a
    · simp only [uLoginLegacy]
      exact uGo_prompt cfg uenv maxA hall maxA 1 a (by omega) hmax
  · intro u maxA env a h
    simp only [loginWithRetry] at h
    exact retryGo_ok_success u env maxA 0 a h
  · intro cfg uenv maxA a h
    simp only [uLoginLegacy] at h
    exact uGo_ok_success cfg uenv maxA maxA 1 a h

/-- Witness for the amended C7: the OCR-enabled legacy client never prompts
at a concrete failing environment, while the unified flow at the all-OCR-fail
environment fails overall and does prompt. -/
theorem claim_C7_amended_witness :
    LEv.manualPrompt ∉ (legacyLogin true none lEnvOcrFail false).log
    ∧ (uLoginLegacy ⟨true, false, true⟩ (fun _ => uEnvOcrFail) 5 false).ok
        = false
    ∧ LEv.manualPrompt ∈
        (uLoginLegacy ⟨true, false, true⟩ (fun _ => uEnvOcrFail) 5
          false).log :=
  ⟨claim_C7_amended.1 none lEnvOcrFail false,
   (claim_C7_amended.2.2.1 ⟨true, false, true⟩ (fun _ => uEnvOcrFail) 5 false
      (by omega) (fun _ => ⟨(by decide : uAttemptReady uEnvOcrFail = true),
        (by decide : uOcr ⟨true, false, true⟩ uEnvOcrFail
          (uAttemptImg uEnvOcrFail) = none),
        (by decide : (pyStrip uEnvOcrFail.userInput).length ≠ 4)⟩)).1,
   (claim_C7_amended.2.2.1 ⟨true, false, true⟩ (fun _ => uEnvOcrFail) 5 false
      (by omega) (fun _ => ⟨(by decide : uAttemptReady uEnvOcrFail = true),
        (by decide : uOcr ⟨true, false, true⟩ uEnvOcrFail
          (uAttemptImg uEnvOcrFail) = none),
        (by decide : (pyStrip uEnvOcrFail.userInput).length ≠ 4)⟩)).2⟩

/-- **C8, counterexample.** Starting `_login_legacy` with `_authenticated =
True` (a client that had logged in earlier), an OCR-failing early attempt
replaces the session while the flag stays `True`: the log records
`sessionReset true`, refuting "reset to false ... on replacement of the
session transport between retry attempts" for the unified client. -/
theorem claim_C8_counterexample :
    LEv.sessionReset true ∈
      (uLoginLegacy ⟨true, false, true⟩ (fun _ => uEnvOcrFail) 5 true).log
    ∧ (uLoginLegacy ⟨true, false, true⟩ (fun _ => uEnvOcrFail) 5 true).auth
        = true := by
  constructor <;> decide

/-- **C8, amended.** For every client the flag is `false` at construction
and becomes `true` only after a server-confirmed success (modern: an
existing-session report or a `{status: 200, result: true}` login response;
legacy: a POST answered `"success"`); the legacy client's `logout` resets it
whenever the request returns, and `login_with_retry` resets it at every
session replacement.  The unified `_login_legacy`, however, replaces the
session transport *without* clearing the flag: every `sessionReset` event it
logs carries the flag value the flow started with. -/
theorem claim_C8_amended :
    (∀ (h pw : String) (p : Nat),
      (mkModernClient h pw p).authenticated = false)
    ∧ (∀ (h pw : String) (p : Nat) (u : Bool),
        (mkLegacyClient h pw p u).authenticated = false)
    ∧ (∀ (h pw : String) (p : Option Nat) (dt : Option DisplayType),
        (mkUnifiedClient h pw p dt).authenticated = false)
    ∧ (∀ (env : ModernEnv) (a : Bool), (modernLogin env a).auth = true →
        a = true ∨ env.checkLogin = .ok true
          ∨ ∃ pr, env.postLogin = .ok pr ∧ pr.status = some 200
              ∧ pr.result = true)
    ∧ (∀ (env : ModernEnv) (a : Bool), (uLoginModern env a).auth = true →
        a = true ∨ env.checkLogin = .ok true
          ∨ ∃ pr, env.postLogin = .ok pr ∧ pr.status = some 200
              ∧ pr.result = true)
    ∧ (∀ (u : Bool) (ca : Option String) (e : LegacyEnv) (a : Bool),
        (legacyLogin u ca e a).auth = true →
        a = true ∨ ∃ c ps body, e.post c = .ok (ps, body) ∧ ps = 200
          ∧ pyStrip body = "success")
    ∧ (∀ (u : Bool) (maxA : Nat) (env : Nat → LegacyEnv) (a : Bool),
        (loginWithRetry u maxA env a).auth = true →
        a = true ∨ ∃ j c ps body, (env j).post c = .ok (ps, body) ∧ ps = 200
          ∧ pyStrip body = "success")
    ∧ (∀ (cfg : UOcrCfg) (uenv : Nat → ULegacyEnv) (maxA : Nat) (a : Bool),
        (uLoginLegacy cfg uenv maxA a).auth = true →
        a = true ∨ ∃ i c body, (uenv i).post c = .ok body
          ∧ pyStrip body = "success")
    ∧ (∀ (s : Nat) (a : Bool), (legacyLogout (.ok s) a).2 = false)
    ∧ (∀ (u : Bool) (maxA : Nat) (env : Nat → LegacyEnv) (a b : Bool),
        LEv.sessionReset b ∈ (loginWithRetry u maxA env a).log → b = false)
    ∧ (∀ (cfg : UOcrCfg) (uenv : Nat → ULegacyEnv) (maxA : Nat) (a b : Bool),
        LEv.sessionReset b ∈ (uLoginLegacy cfg uenv maxA a).log → b = a) := by
  refine ⟨fun _ _ _ => rfl, fun _ _ _ _ => rfl, fun _ _ _ _ => rfl,
    modernLogin_auth, uLoginModern_auth, legacyLogin_auth_success,
    loginWithRetry_auth_success, uLoginLegacy_auth_success,
    fun _ _ => rfl, ?_, ?_⟩
  · intro u maxA env a b hmem
    simp only [loginWithRetry] at hmem
    exact retryGo_resets_false u env maxA 0 a b hmem
  · intro cfg uenv maxA a b hmem
    simp only [uLoginLegacy] at hmem
    exact uGo_resets_carry cfg uenv maxA maxA 1 a b hmem

/-- A legacy-client attempt whose POST answers `200 "success"`. -/
def lEnvSuccess : LegacyEnv :=
  ⟨.ok 200, .ok 200, .ok (200, 0), fun _ => .ok "1234", "",
   fun _ => .ok (200, "success")⟩

/-- Witness for the amended C8 at concrete inputs: a fresh client is
unauthenticated, logout clears the flag, a legacy login that ends
authenticated exhibits a server-confirmed `"success"` POST, and the reset
logged by a concrete `login_with_retry` run carries `false`. -/
theorem claim_C8_amended_witness :
    (mkLegacyClient "10.0.30.1" "pw" 443 true).authenticated = false
    ∧ (legacyLogout (.ok 200) true).2 = false
    ∧ (false = true ∨ ∃ c ps body, lEnvSuccess.post c = .ok (ps, body)
        ∧ ps = 200 ∧ pyStrip body = "success")
    ∧ false = false :=
  ⟨claim_C8_amended.2.1 "10.0.30.1" "pw" 443 true,
   claim_C8_amended.2.2.2.2.2.2.2.2.1 200 true,
   claim_C8_amended.2.2.2.2.2.1 true none lEnvSuccess false (by decide),
   claim_C8_amended.2.2.2.2.2.2.2.2.2.1 true 2 (fun _ => lEnvRestricted)
     false false (by decide)⟩

/-! ## Content operations (modern API)

`get_storage_list`, `get_storage_ids`, `get_media` (`lg_webos_client.py`
lines 186-263), the unified `get_media` (lines 474-508) and `play_playlist`
(lines 510-555). -/

deriving instance DecidableEq for Except

/-- Python runtime errors the content operations can raise. -/
inductive PyErr where
  /-- `AttributeError`: attribute access on `None`. -/
  | attrError
  /-- `TypeError`: subscripting or iterating `None`. -/
  | typeError
  /-- the `Exception("Not authenticated...")` raised by `_request`. -/
  | notAuthenticated
  deriving Repr, DecidableEq

/-- A storage device dict; `get('deviceId')` may be absent. -/
structure StorageDevice where
  deviceId : Option String
  deriving Repr, DecidableEq

/-- A media entry dict with the fields the client code reads. -/
structure MediaEntry where
  fileName : String
  mediaType : String
  fullPath : String
  udn : String
  deriving Repr, DecidableEq

/-- `{payload: {devices: [...]}}` with optional levels. -/
structure StoragePayload where
  devices : Option (List StorageDevice)
  deriving Repr, DecidableEq

structure StorageData where
  payload : Option StoragePayload
  deriving Repr, DecidableEq

/-- The parsed `/storage/list` response body. -/
structure StorageJson where
  data : Option StorageData
  deriving Repr, DecidableEq

structure ContentPayload where
  results : Option (List MediaEntry)
  deriving Repr, DecidableEq

structure ContentData where
  payload : Option ContentPayload
  deriving Repr, DecidableEq

/-- The parsed `/content/list` response body. -/
structure ContentJson where
  data : Option ContentData
  deriving Repr, DecidableEq

/-- The query `get_media` sends to `/content/list`: the media-type filters
and the storage-device ids placed in the request's `filter` clause. -/
structure ContentQuery where
  filters : List String
  storageIds : List (Option String)
  deriving Repr, DecidableEq

/-- Server responses for the content operations; `.error ()` is a raised
request (or malformed JSON), which `_request` itself catches and turns into
`None`. -/
structure ContentEnv where
  /-- `GET /storage/list`: HTTP status and parsed body. -/
  storage : Except Unit (Nat × StorageJson)
  /-- `GET /content/list` for a given query. -/
  content : ContentQuery → Except Unit (Nat × ContentJson)
  /-- `PUT /content/play/dsmp` for a given mediaType and fullPath: HTTP
  status and the `status` field of the body. -/
  play : String → String → Except Unit (Nat × Option Nat)
  /-- whether the Socket.io connection for the legacy branch succeeds. -/
  sioOk : Bool

/-- `_request` (`lg_webos_client.py` lines 135-172), given an authenticated
session: `None` on a raised request, malformed JSON or a non-200 status,
otherwise the parsed JSON. -/
def requestJson {α : Type} (resp : Except Unit (Nat × α)) : Option α :=
  match resp with
  | .error _ => none
  | .ok (s, j) => if s = 200 then some j else none

/-- `get_storage_list` (lines 186-206).  Note lines 201-206 call
`response.get('data')` without a `None` guard: when `_request` returns
`None`, the call raises `AttributeError`. -/
def get_storage_list (auth : Bool) (env : ContentEnv) :
    Except PyErr (Option (List StorageDevice)) :=
  if ¬auth then .error .notAuthenticated
  else
    match requestJson env.storage with
    | none => .error .attrError
    | some j =>
      let data := j.data
      let payload := match data with
        | some d => d.payload
        | none => none
      let devices := match payload with
        | some p => p.devices
        | none => none
      .ok devices

/-- `get_storage_ids` (lines 208-219): `None` or an empty device list both
yield `[]` (Python truthiness). -/
def get_storage_ids (auth : Bool) (env : ContentEnv) :
    Except PyErr (List (Option String)) :=
  match get_storage_list auth env with
  | .error e => .error e
  | .ok devices =>
    match devices with
    | some l => if l ≠ [] then .ok (l.map (·.deviceId)) else .ok []
    | none => .ok []

/-- The default media-type filters (line 234). -/
def defaultFilters : List String :=
  ["VIDEO", "IMAGE", "TEMPLATE", "SUPER_SIGN", "PLAY_LIST"]

/-- Extraction of `results` from a `/content/list` response (lines 259-261):
each level guarded, `None` propagated. -/
def contentResults (r : Option ContentJson) : Option (List MediaEntry) :=
  match r with
  | none => none
  | some j =>
    match j.data with
    | none => none
    | some d =>
      match d.payload with
      | none => none
      | some p => p.results

/-- `get_media` (lines 222-263): obtains the storage ids, sends them in the
query's `filter` clause, and returns the response's `results` verbatim. -/
def get_media (auth : Bool) (env : ContentEnv)
    (filters : Option (List String)) :
    Except PyErr (Option (List MediaEntry)) :=
  let filters := filters.getD defaultFilters
  match get_storage_ids auth env with
  | .error e => .error e
  | .ok storage_ids =>
    .ok (contentResults (requestJson (env.content ⟨filters, storage_ids⟩)))

/-- Line 491 of the unified client: `[d.get('deviceId') for d in
response.get('data', {}).get('payload', {}).get('devices', [])]`. -/
def uStorageIds (j : StorageJson) : List (Option String) :=
  let devices : List StorageDevice :=
    match j.data with
    | none => []
    | some d =>
      match d.payload with
      | none => []
      | some p => p.devices.getD []
  devices.map fun d => d.deviceId

/-- The unified client's `get_media` (lines 474-508): non-modern display →
`None`; a `None` storage response is guarded (`if not response: return
None`); the ids are read with `.get(..., {})` defaults and no emptiness
special-case. -/
def uGetMedia (displayType : Option DisplayType) (auth : Bool)
    (env : ContentEnv) (filters : Option (List String)) :
    Except PyErr (Option (List MediaEntry)) :=
  if displayType ≠ some .modern then .ok none
  else if ¬auth then .error .notAuthenticated
  else
    let filters := filters.getD defaultFilters
    match requestJson env.storage with
    | none => .ok none
    | some j =>
      .ok (contentResults
        (requestJson (env.content ⟨filters, uStorageIds j⟩)))

/-- The unified client's `play_playlist` (lines 510-555), modern branch:
`next((obj for obj in media if obj['fileName'] == playlist_name), None)`
followed by unconditional subscripting of the result, so both a `None` media
list and a missing playlist raise `TypeError`. -/
def uPlayPlaylist (displayType : Option DisplayType) (auth : Bool)
    (env : ContentEnv) (playlist_name : String) : Except PyErr Bool :=
  if ¬auth then .error .notAuthenticated
  else if displayType = some .modern then
    match uGetMedia displayType auth env (some ["PLAY_LIST"]) with
    | .error e => .error e
    | .ok none => .error .typeError
    | .ok (some media) =>
      match media.find? (fun obj => obj.fileName == playlist_name) with
      | none => .error .typeError
      | some sel =>
        match requestJson (env.play sel.mediaType sel.fullPath) with
        | none => .ok false
        | some statusField => .ok (statusField == some 200)
  else
    .ok env.sioOk


/-! ### Concrete content environments -/

/-- A playlist entry named `Sunday.pls` resident on device `dev1`. -/
def sundayEntry : MediaEntry :=
  ⟨"Sunday.pls", "PLAY_LIST", "/mnt/lg/appstore/signage/Sunday.pls", "dev1"⟩

/-- A playlist entry whose `udn` (`dev2`) is not a listed storage device. -/
def foreignEntry : MediaEntry :=
  ⟨"Alien.pls", "PLAY_LIST", "/mnt/usb/Alien.pls", "dev2"⟩

/-- One storage device `dev1`; the content listing answers every query with
`[sundayEntry]`; playback requests succeed. -/
def cEnvSunday : ContentEnv :=
  ⟨.ok (200, ⟨some ⟨some ⟨some [⟨some "dev1"⟩]⟩⟩⟩),
   fun _ => .ok (200, ⟨some ⟨some ⟨some [sundayEntry]⟩⟩⟩),
   fun _ _ => .ok (200, some 200), true⟩

/-- One storage device `dev1`, but the (fake) server's content listing
returns an entry resident on `dev2`. -/
def cEnvForeign : ContentEnv :=
  ⟨.ok (200, ⟨some ⟨some ⟨some [⟨some "dev1"⟩]⟩⟩⟩),
   fun _ => .ok (200, ⟨some ⟨some ⟨some [foreignEntry]⟩⟩⟩),
   fun _ _ => .ok (200, some 200), true⟩

/-- A `/storage/list` endpoint answering HTTP 500. -/
def cEnvStorage500 : ContentEnv :=
  ⟨.ok (500, ⟨some ⟨some ⟨some [⟨some "dev1"⟩]⟩⟩⟩),
   fun _ => .ok (200, ⟨some ⟨some ⟨some [sundayEntry]⟩⟩⟩),
   fun _ _ => .ok (200, some 200), true⟩

/-- **C2** (code-bug evaluation).  On an authenticated modern client whose
media listing contains only `Sunday.pls`, `play_playlist` raises an uncaught
`TypeError` (`'NoneType' object is not subscriptable`) for a missing name and
for a case-mismatched name — matching is exact and case-sensitive — instead
of returning the not-found failure the spec describes; the exact name plays
fine. -/
theorem claim_C2_crash_eval :
    uPlayPlaylist (some .modern) true cEnvSunday "Missing.pls"
        = .error .typeError
    ∧ uPlayPlaylist (some .modern) true cEnvSunday "sunday.pls"
        = .error .typeError
    ∧ uPlayPlaylist (some .modern) true cEnvSunday "SUNDAY.PLS"
        = .error .typeError
    ∧ uPlayPlaylist (some .modern) true cEnvSunday "Sunday.pls" = .ok true :=
  ⟨by decide, by decide, by decide, by decide⟩

/-- **C5, counterexample.** The client does not exclude entries whose `udn`
is absent from the storage ids: with storage ids `[dev1]` and a fake server
returning an entry on `dev2`, both `get_media` implementations return that
entry. -/
theorem claim_C5_counterexample :
    get_storage_ids true cEnvForeign = .ok [some "dev1"]
    ∧ get_media true cEnvForeign none = .ok (some [foreignEntry])
    ∧ uGetMedia (some .modern) true cEnvForeign none
        = .ok (some [foreignEntry])
    ∧ foreignEntry.udn = "dev2"
    ∧ some foreignEntry.udn ∉ [some "dev1"] :=
  ⟨by decide, by decide, by decide, by decide, by decide⟩

/-- **C5, amended.** `get_media` delegates the `udn` restriction to the
server: it places the storage ids obtained from the preceding storage query
into the request's `filter` clause and returns the server's `results` list
verbatim, performing no client-side exclusion of entries whose `udn` is not
among those ids.  Both implementations behave this way. -/
theorem claim_C5_amended (env : ContentEnv) (filters : Option (List String))
    (ids : List (Option String)) (j : StorageJson)
    (h : get_storage_ids true env = .ok ids)
    (hu : requestJson env.storage = some j) :
    get_media true env filters =
      .ok (contentResults
        (requestJson (env.content ⟨filters.getD defaultFilters, ids⟩)))
    ∧ uGetMedia (some .modern) true env filters =
        .ok (contentResults (requestJson (env.content
          ⟨filters.getD defaultFilters, uStorageIds j⟩))) := by
  constructor
  · simp only [get_media, h]
  · simp only [uGetMedia, hu]
    simp

/-- Witness for the amended C5 at the foreign-entry environment: the entry on
`dev2` is passed through verbatim. -/
theorem claim_C5_amended_witness :
    get_media true cEnvForeign none =
      .ok (contentResults (requestJson (cEnvForeign.content
        ⟨defaultFilters, [some "dev1"]⟩))) :=
  (claim_C5_amended cEnvForeign none [some "dev1"]
    ⟨some ⟨some ⟨some [⟨some "dev1"⟩]⟩⟩⟩ (by decide) (by decide)).1

/-- **C10.** When the `/storage/list` response status is not 200, `_request`
returns `None` and `get_storage_list` dereferences it (`response.get('data')`
with no guard), raising `AttributeError`; `get_storage_ids` and `get_media`
propagate the crash. -/
theorem claim_C10_storage_crash (env : ContentEnv) (s : Nat) (j : StorageJson)
    (hs : env.storage = .ok (s, j)) (hne : s ≠ 200) :
    requestJson env.storage = none
    ∧ get_storage_list true env = .error .attrError
    ∧ get_storage_ids true env = .error .attrError
    ∧ ∀ filters, get_media true env filters = .error .attrError := by
  have hreq : requestJson env.storage = none := by
    simp [requestJson, hs, hne]
  refine ⟨hreq, ?_, ?_, ?_⟩
  · simp [get_storage_list, hreq]
  · simp [get_storage_ids, get_storage_list, hreq]
  · intro filters
    simp [get_media, get_storage_ids, get_storage_list, hreq]

/-- Witness for C10 at a concrete HTTP-500 storage endpoint. -/
theorem claim_C10_storage_crash_witness :
    get_storage_list true cEnvStorage500 = .error .attrError
    ∧ get_media true cEnvStorage500 none = .error .attrError :=
  ⟨(claim_C10_storage_crash cEnvStorage500 500
      ⟨some ⟨some ⟨some [⟨some "dev1"⟩]⟩⟩⟩ rfl (by omega)).2.1,
   (claim_C10_storage_crash cEnvStorage500 500
      ⟨some ⟨some ⟨some [⟨some "dev1"⟩]⟩⟩⟩ rfl (by omega)).2.2.2 none⟩

/-! ## Legacy playback path normalization

`LGWebOSLegacyClient.play_playlist` (`lg_webos_legacy_client.py` lines
550-584) and the unified `play_playlist` legacy branch
(`lg_webos_unified_client.py` lines 543-555). -/

/-- Python `playlist_path.startswith('/')`. -/
def startsWithSlash (s : String) : Bool :=
  match s.data with
  | [] => false
  | c :: _ => c == '/'

/-- The Luna launch message `_palm_service_call` dispatches. -/
structure LaunchCmd where
  serviceId : String
  appId : String
  ptype : String
  src : String
  deriving Repr, DecidableEq

/-- `LGWebOSLegacyClient.play_playlist` (lines 550-584): path normalization
and the launch command it fires. -/
def legacyPlayCmd (playlist_path : String) : LaunchCmd :=
  let playlist_path :=
    if ¬startsWithSlash playlist_path then
      "/mnt/lg/appstore/signage/" ++ playlist_path
    else playlist_path
  ⟨"luna://com.webos.applicationManager/launch", "com.webos.app.dsmp",
   "playlist", playlist_path⟩

/-- The unified `play_playlist` legacy branch (lines 543-555). -/
def uLegacyPlayCmd (playlist_name : String) : LaunchCmd :=
  let playlist_name :=
    if ¬startsWithSlash playlist_name then
      "/mnt/lg/appstore/signage/" ++ playlist_name
    else playlist_name
  ⟨"luna://com.webos.applicationManager/launch", "com.webos.app.dsmp",
   "playlist", playlist_name⟩

/-- **C9.** For every legacy playback call, a reference that does not start
with `/` yields a launch command whose `src` is exactly
`/mnt/lg/appstore/signage/` followed by the reference unchanged, while a
reference starting with `/` is sent as-is; the legacy client and the unified
client's legacy branch build identical commands, and the spec's example
`"Sunday.pls"` normalizes to `/mnt/lg/appstore/signage/Sunday.pls`. -/
theorem claim_C9_path_normalization (ref : String) :
    ((legacyPlayCmd ref).src =
      if startsWithSlash ref then ref
      else "/mnt/lg/appstore/signage/" ++ ref)
    ∧ uLegacyPlayCmd ref = legacyPlayCmd ref
    ∧ (legacyPlayCmd ref).serviceId
        = "luna://com.webos.applicationManager/launch"
    ∧ (legacyPlayCmd ref).appId = "com.webos.app.dsmp"
    ∧ (legacyPlayCmd ref).ptype = "playlist"
    ∧ (legacyPlayCmd "Sunday.pls").src = "/mnt/lg/appstore/signage/Sunday.pls"
    ∧ (legacyPlayCmd "/mnt/lg/appstore/signage/Niedziela.pls").src
        = "/mnt/lg/appstore/signage/Niedziela.pls" := by
  refine ⟨?_, rfl, ?_, ?_, ?_, by decide, by decide⟩ <;>
    by_cases h : startsWithSlash ref <;> simp [legacyPlayCmd, h]

end LGWebOS
